import Mathlib

/-!
Verification of the device-registry persistence layer in `db/db.go` of
FarmRadioHangar/devices.

The store is embedded shallowly: the single `dongles` table becomes a list
of rows (`Store`), ql SQL statements become pure functions over it, and the
`database/sql` error surface becomes the small inductive `DBErr`. The list
order of a `Store` models the order in which an unordered `SELECT` happens
to enumerate the table in one snapshot (ql gives no ordering guarantee).
Read operations that can hit an unreachable store take an `Option Store`
(`none` models a failing query/connection).
-/

namespace Db

/-- Error surface of the store, following the spec's error taxonomy:
`notFound` for a point lookup or canonical-port resolution that matches no
row, `constraintViolation` for a write rejected by the unique index on
`path`, `indexExists` for ql's error when `CREATE UNIQUE INDEX` (without
IF NOT EXISTS) hits an already existing index, and `storageError` for an
unavailable store or failing query. -/
inductive DBErr where
  | notFound
  | constraintViolation
  | indexExists
  | storageError
deriving DecidableEq

/-- Blob stored in the `properties` column: `json.Marshal` of a Go
`map[string]string` is modelled by the key-value entries of the encoded
JSON object. -/
abbrev Blob := List (String × String)

/-- One row of the `dongles` table, with the columns of `migrationSQL`:
imei, imsi, path, symlink, tty, ati, properties (nullable blob),
created_on, updated_on. Timestamps are modelled as natural numbers. -/
structure Row where
  imei : String
  imsi : String
  path : String
  symlink : Bool
  tty : Int
  ati : String
  prop : Option Blob
  createdOn : Nat
  updatedOn : Nat
deriving DecidableEq

/-- The `Dongle` struct of `db.go`. -/
structure Dongle where
  imei : String
  imsi : String
  path : String
  isSymlinked : Bool
  tty : Int
  ati : String
  properties : Option (List (String × String))
  createdOn : Nat
  updatedOn : Nat
deriving DecidableEq

/-- The contents of the `dongles` table, in one snapshot's enumeration
order. -/
abbrev Store := List Row

/-- Schema state touched by `Migration`: whether the `dongles` table and
the unique index `UQE_dongels` on `dongles(path)` exist. -/
structure Schema where
  hasTable : Bool
  hasIndex : Bool
deriving DecidableEq

/-- The `Migration` function running `migrationSQL` in one transaction:
`CREATE TABLE IF NOT EXISTS dongles(...)` is a no-op when the table exists,
but `CREATE UNIQUE INDEX UQE_dongels on dongles(path)` carries no
IF NOT EXISTS, so it fails when the index already exists; the transaction
is then rolled back (the schema, and any data, are left unchanged, which
the error result models) and the error is returned. -/
def migration (s : Schema) : Except DBErr Schema :=
  if s.hasIndex then .error .indexExists
  else .ok { hasTable := true, hasIndex := true }

/-- The marshalling step of `CreateDongle`/`UpdateDongle`: `prop` stays the
nil blob when `d.Properties` is nil, otherwise it is the JSON encoding of
the map (which cannot fail for a `map[string]string`). -/
def marshalProps : Option (List (String × String)) → Option Blob
  | none => none
  | some m => some m

/-- The scanning step of `GetAllDongles`/`GetDongle`: `json.Unmarshal` runs
only when the blob is non-nil, so a nil blob leaves `Properties` nil. -/
def unmarshalProps : Option Blob → Option (List (String × String))
  | none => none
  | some b => some b

/-- Scanning one row into a `Dongle`, as in the `rows.Scan` calls. -/
def scanDongle (r : Row) : Dongle :=
  { imei := r.imei, imsi := r.imsi, path := r.path, isSymlinked := r.symlink,
    tty := r.tty, ati := r.ati, properties := unmarshalProps r.prop,
    createdOn := r.createdOn, updatedOn := r.updatedOn }

/-- `GetAllDongles`: `select * from dongles`, scanning every row; a failing
query (unreachable store) surfaces its error. -/
def getAllDongles (db : Option Store) : Except DBErr (List Dongle) :=
  match db with
  | none => .error .storageError
  | some st => .ok (st.map scanDongle)

/-- Lookup in the association list modelling the Go map
`s map[string]Dongles` of `GetDistinct`. -/
def alGet (s : List (String × List Dongle)) (k : String) : Option (List Dongle) :=
  (s.find? (fun p => p.1 == k)).map (fun p => p.2)

/-- Assignment `s[k] = v` on the association list modelling the Go map of
`GetDistinct`. Go map iteration order is unspecified; the model fixes
first-insertion key order, on which no per-key value depends. -/
def alSet (s : List (String × List Dongle)) (k : String) (v : List Dongle) :
    List (String × List Dongle) :=
  match s with
  | [] => [(k, v)]
  | p :: rest => if p.1 == k then (k, v) :: rest else p :: alSet rest k v

/-- The grouping loop of `GetDistinct`, statement by statement: for each
dongle, if its IMEI is already a key the group is extended, and then the
key is unconditionally overwritten with the singleton of the current
dongle (the overwrite is the source's final statement of the loop body). -/
def getDistinctLoop : List Dongle → List (String × List Dongle) → List (String × List Dongle)
  | [], s => s
  | x :: rest, s =>
    let s1 := match alGet s x.imei with
      | some v => alSet s x.imei (v ++ [x])
      | none => s
    getDistinctLoop rest (alSet s1 x.imei [x])

/-- Insertion step of the sort performed by `sort.Sort(v)` with
`Less i j = a[i].TTY < a[j].TTY`. -/
def insertByTTY (d : Dongle) : List Dongle → List Dongle
  | [] => [d]
  | e :: es => if d.tty < e.tty then d :: e :: es else e :: insertByTTY d es

/-- Sorting a group of dongles by ascending TTY (Go's sort is unstable, but
every group reaching this point is a singleton, so stability is moot). -/
def sortByTTY (l : List Dongle) : List Dongle := l.foldr insertByTTY []

/-- `GetDistinct`: loads all dongles, returns them unchanged when the store
is empty, otherwise groups by IMEI with `getDistinctLoop`, sorts each group
by TTY, and emits the head of each group. -/
def getDistinct (db : Option Store) : Except DBErr (List Dongle) :=
  match getAllDongles db with
  | .error e => .error e
  | .ok a =>
    if a.isEmpty then .ok a
    else
      let s := getDistinctLoop a []
      let sorted := s.map (fun p => (p.1, sortByTTY p.2))
      .ok (sorted.filterMap (fun p => p.2.head?))

/-- The row written by `CreateDongle`'s INSERT: all fields from the
argument, properties marshalled, created_on and updated_on stamped with
`now()`. -/
def mkRow (d : Dongle) (now : Nat) : Row :=
  { imei := d.imei, imsi := d.imsi, path := d.path, symlink := d.isSymlinked,
    tty := d.tty, ati := d.ati, prop := marshalProps d.properties,
    createdOn := now, updatedOn := now }

/-- `CreateDongle`: marshals properties, then inserts the row in one
transaction. The unique index `UQE_dongels` on `dongles(path)` rejects a
row whose path already exists; the transaction is rolled back (state
unchanged) and the constraint error returned. -/
def createDongle (st : Store) (d : Dongle) (now : Nat) : Store × Option DBErr :=
  if st.any (fun r => r.path == d.path) then
    (st, some .constraintViolation)
  else
    (st ++ [mkRow d now], none)

/-- The per-row effect of `UpdateDongle`'s UPDATE statement: rows matching
`path=$3 && imei=$1` get imei, imsi, path, symlink, tty and properties from
the argument, created_on is overwritten with the argument's `CreatedOn`
($7), updated_on is stamped `now()`; `ati` is absent from the assignment
list and keeps its stored value. Other rows are untouched. -/
def updateRow (d : Dongle) (now : Nat) (r : Row) : Row :=
  if r.path == d.path && r.imei == d.imei then
    { r with
      imei := d.imei
      imsi := d.imsi
      path := d.path
      symlink := d.isSymlinked
      tty := d.tty
      prop := marshalProps d.properties
      createdOn := d.createdOn
      updatedOn := now }
  else r

/-- `UpdateDongle`: marshals properties, then runs the UPDATE over every
row in one transaction (ql's UPDATE grammar makes SET optional and allows
the trailing comma, so the statement executes); a no-match update is a
silent success. -/
def updateDongle (st : Store) (d : Dongle) (now : Nat) : Store × Option DBErr :=
  (st.map (updateRow d now), none)

/-- `RemoveDongle`: `DELETE FROM dongles WHERE imei=$1` in one transaction;
only the argument's IMEI reaches the statement. Deleting with an unknown
IMEI deletes zero rows and commits successfully. -/
def removeDongle (st : Store) (d : Dongle) : Store × Option DBErr :=
  (st.filter (fun r => r.imei != d.imei), none)

/-- `GetDongle`: `SELECT * from dongles WHERE path=$1 LIMIT 1`, scanning
the single matching row (path is unique, so at most one row matches);
`sql.ErrNoRows` when none does. -/
def getDongle (st : Store) (path : String) : Except DBErr Dongle :=
  match st.find? (fun r => r.path == path) with
  | none => .error .notFound
  | some r => .ok (scanDongle r)

/-- The `min(tty)` aggregate: `none` models the NULL ql produces over an
empty group. -/
def minTTY : List Int → Option Int
  | [] => none
  | t :: ts => some (ts.foldl min t)

/-- `GetSymlinkCandidate`: takes `min(tty)` over the rows with the given
imei (scanning the NULL aggregate of an empty group fails; in the spec's
taxonomy that resolution failure is `notFound`), builds the path with
`fmt.Sprintf` from the string literal "/dev/ttyUSB" and the minimum tty,
and fetches the row at that path with `GetDongle`, with no retry. -/
def getSymlinkCandidate (st : Store) (imei : String) : Except DBErr Dongle :=
  match minTTY ((st.filter (fun r => r.imei == imei)).map (fun r => r.tty)) with
  | none => .error .notFound
  | some m => getDongle st ("/dev/ttyUSB" ++ toString m)

/-- Modelled from the spec: the Canonicalization Engine's canonical-port
resolution of spec sections 4.3 and 6, in which the port-naming convention
is a configurable prefix `pre` joined with the integer index — the source's
`GetSymlinkCandidate` instead hardcodes the prefix in the engine. Steps:
minimum PortIndex of the device's bindings (`NotFound` when it has none),
path reconstruction `pre ++ index`, fetch of the binding at that path. -/
def getCanonicalPortSpec (pre : String) (st : Store) (imei : String) : Except DBErr Dongle :=
  match minTTY ((st.filter (fun r => r.imei == imei)).map (fun r => r.tty)) with
  | none => .error .notFound
  | some m => getDongle st (pre ++ toString m)

/-- `DongleExists`: counts the rows matching the full triple
`imei=$1 && imsi=$2 && path=$3` and returns `count > 0`; a failing query
(unreachable store) is logged and suppressed, yielding `false`. -/
def dongleExists (db : Option Store) (m : Dongle) : Bool :=
  match db with
  | none => false
  | some st =>
    let count := (st.filter (fun r =>
      r.imei == m.imei && r.imsi == m.imsi && r.path == m.path)).length
    decide (count > 0)

/-- Binding of device "A" on port 0 (tty 0), enumerated first. -/
def rowA0 : Row :=
  { imei := "A", imsi := "S1", path := "/dev/ttyUSB0", symlink := false,
    tty := 0, ati := "ATI", prop := none, createdOn := 0, updatedOn := 0 }

/-- Binding of device "A" on port 2 (tty 2), enumerated last. -/
def rowA2 : Row :=
  { imei := "A", imsi := "S1", path := "/dev/ttyUSB2", symlink := false,
    tty := 2, ati := "ATI", prop := none, createdOn := 1, updatedOn := 1 }

/-- Binding of device "A" on a host whose port-naming convention is
"/dev/ttyACM" followed by the index. -/
def rowACM0 : Row :=
  { imei := "A", imsi := "S1", path := "/dev/ttyACM0", symlink := false,
    tty := 0, ati := "ATI", prop := none, createdOn := 0, updatedOn := 0 }

/-- First insert of a duplicate-path pair: device "A" at port 0. -/
def bIns1 : Dongle :=
  { imei := "A", imsi := "S1", path := "/dev/ttyUSB0", isSymlinked := false,
    tty := 0, ati := "ATI", properties := none, createdOn := 0, updatedOn := 0 }

/-- Second insert of a duplicate-path pair: device "B" claiming the same
port path as `bIns1`. -/
def bIns2 : Dongle :=
  { imei := "B", imsi := "S2", path := "/dev/ttyUSB0", isSymlinked := false,
    tty := 0, ati := "ATI", properties := none, createdOn := 0, updatedOn := 0 }

/-- A dongle with an absent (nil) properties map. -/
def bNoProps : Dongle :=
  { imei := "A", imsi := "S1", path := "/dev/ttyUSB1", isSymlinked := false,
    tty := 1, ati := "ATI", properties := none, createdOn := 0, updatedOn := 0 }

/-- A stored row about to be updated: ati "orig", created_on 5. -/
def rowUpd : Row :=
  { imei := "A", imsi := "S", path := "/p", symlink := false, tty := 1,
    ati := "orig", prop := none, createdOn := 5, updatedOn := 5 }

/-- An update argument matching `rowUpd` on (imei, path) but carrying a new
ati and a different CreatedOn. -/
def dUpd : Dongle :=
  { imei := "A", imsi := "S2", path := "/p", isSymlinked := true, tty := 2,
    ati := "new", properties := none, createdOn := 9, updatedOn := 9 }

/-- A delete argument whose IMEI "B" matches no stored row of the witness
store. -/
def dRemB : Dongle :=
  { imei := "B", imsi := "S9", path := "/q", isSymlinked := false, tty := 3,
    ati := "ATI", properties := none, createdOn := 0, updatedOn := 0 }

/-- One of two delete arguments agreeing only on IMEI "C". -/
def dTwinA : Dongle :=
  { imei := "C", imsi := "S1", path := "/a", isSymlinked := false, tty := 0,
    ati := "x", properties := none, createdOn := 0, updatedOn := 0 }

/-- The other delete argument with IMEI "C", differing from `dTwinA` in
every other field. -/
def dTwinB : Dongle :=
  { imei := "C", imsi := "S2", path := "/b", isSymlinked := true, tty := 1,
    ati := "y", properties := some [("k", "v")], createdOn := 1, updatedOn := 2 }

end Db

namespace Db

/-- C1: with device "A" bound on tty 0 and tty 2 and `GetAll` enumerating
the tty-0 binding first, `GetDistinct` returns the tty-2 binding as the
representative — the last binding seen, not the one with the minimum
PortIndex — because the grouping loop unconditionally overwrites each
IMEI's group with the singleton of the current element. -/
theorem getDistinct_returns_last_seen_not_min :
    getDistinct (some [rowA0, rowA2]) = .ok [scanDongle rowA2] ∧
    rowA0.imei = rowA2.imei ∧ rowA0.tty = 0 ∧ rowA2.tty = 2 := by
  refine ⟨rfl, rfl, rfl, rfl⟩

/-- C6: `Migration` from a blank schema creates the table and the unique
index, but a repeated call fails — `CREATE UNIQUE INDEX` carries no
IF NOT EXISTS — instead of being the idempotent no-op the spec requires. -/
theorem migration_repeated_call_fails :
    migration { hasTable := false, hasIndex := false } =
      .ok { hasTable := true, hasIndex := true } ∧
    migration { hasTable := true, hasIndex := true } = .error .indexExists := by
  refine ⟨rfl, rfl⟩

/-- C9: on an empty store `GetDistinct` returns the empty result and no
error, short-circuiting before the grouping loop. -/
theorem getDistinct_empty_store : getDistinct (some []) = .ok [] := rfl

/-- C2 counterexample: on a host whose port-naming convention is
"/dev/ttyACM", a binding of device "A" at "/dev/ttyACM0" with index 0 is
resolved by the spec's prefix-configurable engine, but the source's
`GetSymlinkCandidate` still rebuilds the path from the hardcoded
"/dev/ttyUSB" literal and fails with `NotFound`. -/
theorem getSymlinkCandidate_hardcodes_the_usb_convention :
    getSymlinkCandidate [rowACM0] "A" = .error .notFound ∧
    getCanonicalPortSpec "/dev/ttyACM" [rowACM0] "A" = .ok (scanDongle rowACM0) :=
  ⟨rfl, rfl⟩

/-- C2 amended: `GetSymlinkCandidate` behaves exactly as the spec's
canonical-port resolution instantiated at the fixed, hardcoded prefix
"/dev/ttyUSB" — minimum PortIndex, path reconstruction from that prefix
and the index, fetch at that path — and fails with `NotFound`, without
retrying, when the device has no bindings. -/
theorem getSymlinkCandidate_amended :
    (∀ (st : Store) (im : String),
      getSymlinkCandidate st im = getCanonicalPortSpec "/dev/ttyUSB" st im) ∧
    (∀ (st : Store) (im : String), st.filter (fun r => r.imei == im) = [] →
      getSymlinkCandidate st im = .error .notFound) := by
  constructor
  · intro st im
    rfl
  · intro st im h
    simp [getSymlinkCandidate, h, minTTY]

/-- Witness for C2's amended theorem: a device with no bindings resolves
to `NotFound`. -/
theorem getSymlinkCandidate_amended_witness :
    getSymlinkCandidate [] "Z" = .error .notFound :=
  getSymlinkCandidate_amended.2 [] "Z" rfl

/-- C3: after a successful insert of `b1`, inserting `b2` with the same
`PortPath` and a different `PhysicalID` fails with `ConstraintViolation`
and leaves the stored state exactly as it was after the first insert. -/
theorem insert_duplicate_path_fails (st : Store) (b1 b2 : Dongle) (n1 n2 : Nat)
    (hpath : b1.path = b2.path) (_hid : b1.imei ≠ b2.imei)
    (h1 : (createDongle st b1 n1).2 = none) :
    createDongle (createDongle st b1 n1).1 b2 n2 =
      ((createDongle st b1 n1).1, some DBErr.constraintViolation) := by
  by_cases hc : st.any (fun r => r.path == b1.path) = true
  · simp [createDongle, hc] at h1
  · have hc' : st.any (fun r => r.path == b1.path) = false := by
      simpa using hc
    have hfirst : (createDongle st b1 n1).1 = st ++ [mkRow b1 n1] := by
      simp [createDongle, hc']
    have hany : ((st ++ [mkRow b1 n1]).any (fun r => r.path == b2.path)) = true := by
      simp [List.any_append, mkRow, hpath]
    rw [hfirst]
    simp [createDongle, hany]

/-- Witness for C3: device "B" fails to claim the port path already held
by device "A", and the state keeps only the first insert. -/
theorem insert_duplicate_path_fails_witness :
    createDongle (createDongle [] bIns1 3).1 bIns2 4 =
      ((createDongle [] bIns1 3).1, some DBErr.constraintViolation) :=
  insert_duplicate_path_fails [] bIns1 bIns2 3 4 rfl (by decide) rfl

/-- Marshalling then unmarshalling the properties blob is the identity,
in particular a nil map stays nil rather than becoming an empty map. -/
theorem unmarshal_marshal (o : Option (List (String × String))) :
    unmarshalProps (marshalProps o) = o := by
  cases o <;> rfl

/-- A search that fails on the first list skips it. -/
theorem find_skips_failing_front {α : Type} (p : α → Bool) (l1 l2 : List α)
    (h : l1.find? p = none) : (l1 ++ l2).find? p = l2.find? p := by
  induction l1 with
  | nil => rfl
  | cons a as ih =>
    cases hpa : p a with
    | true => simp [List.find?_cons, hpa] at h
    | false =>
      have h' : as.find? p = none := by
        rw [List.find?_eq_none] at h ⊢
        intro x hx
        exact h x (List.mem_cons_of_mem a hx)
      simp only [List.cons_append, List.find?_cons, hpa]
      exact ih h'

/-- C4: inserting a binding at a fresh port path succeeds, and reading it
back by path returns the binding with the same `Properties` map — an
absent map stays absent and a present map keeps its contents — with both
timestamps stamped to the insertion time. -/
theorem insert_then_get_roundtrip (st : Store) (b : Dongle) (n : Nat)
    (h : st.any (fun r => r.path == b.path) = false) :
    (createDongle st b n).2 = none ∧
    getDongle (createDongle st b n).1 b.path =
      .ok { imei := b.imei, imsi := b.imsi, path := b.path,
            isSymlinked := b.isSymlinked, tty := b.tty, ati := b.ati,
            properties := b.properties, createdOn := n, updatedOn := n } := by
  have hstep : createDongle st b n = (st ++ [mkRow b n], none) := by
    simp [createDongle, h]
  refine ⟨by rw [hstep], ?_⟩
  have hnone : st.find? (fun r => r.path == b.path) = none := by
    rw [List.find?_eq_none]
    intro x hx
    have hall := List.any_eq_false.mp h
    simpa using hall x hx
  rw [hstep]
  simp only [getDongle]
  rw [find_skips_failing_front _ _ _ hnone]
  simp [List.find?_cons, mkRow, scanDongle, unmarshal_marshal]

/-- Witness for C4: inserting a binding with an absent properties map into
the empty store and reading it back keeps the map absent. -/
theorem insert_then_get_roundtrip_witness :
    (createDongle [] bNoProps 7).2 = none ∧
    getDongle (createDongle [] bNoProps 7).1 bNoProps.path =
      .ok { imei := bNoProps.imei, imsi := bNoProps.imsi, path := bNoProps.path,
            isSymlinked := bNoProps.isSymlinked, tty := bNoProps.tty,
            ati := bNoProps.ati, properties := bNoProps.properties,
            createdOn := 7, updatedOn := 7 } :=
  insert_then_get_roundtrip [] bNoProps 7 rfl

/-- C5: `DongleExists` is true exactly when some stored row matches the
argument's full (imei, imsi, path) triple, and a failing storage query
makes it return false instead of propagating the error. -/
theorem dongleExists_spec :
    (∀ (st : Store) (m : Dongle),
      dongleExists (some st) m = true ↔
        ∃ r ∈ st, r.imei = m.imei ∧ r.imsi = m.imsi ∧ r.path = m.path) ∧
    (∀ m : Dongle, dongleExists none m = false) := by
  refine ⟨?_, fun m => rfl⟩
  intro st m
  constructor
  · intro hE
    have hE' : decide (0 < (st.filter (fun r =>
        r.imei == m.imei && r.imsi == m.imsi && r.path == m.path)).length) = true := hE
    have hpos := of_decide_eq_true hE'
    obtain ⟨r, hr⟩ := List.exists_mem_of_length_pos hpos
    have hm := List.mem_filter.mp hr
    refine ⟨r, hm.1, ?_⟩
    simpa [Bool.and_eq_true, and_assoc] using hm.2
  · rintro ⟨r, hrmem, h1, h2, h3⟩
    have hmem : r ∈ st.filter (fun r =>
        r.imei == m.imei && r.imsi == m.imsi && r.path == m.path) :=
      List.mem_filter.mpr ⟨hrmem, by simp [h1, h2, h3]⟩
    exact decide_eq_true (List.length_pos_of_mem hmem)

/-- Witness for C5: a present triple is found, and the same lookup against
an unreachable store yields false rather than an error. -/
theorem dongleExists_spec_witness :
    dongleExists (some [rowA0]) bIns1 = true ∧ dongleExists none bIns1 = false :=
  ⟨(dongleExists_spec.1 [rowA0] bIns1).mpr ⟨rowA0, by simp, rfl, rfl, rfl⟩,
   dongleExists_spec.2 bIns1⟩

/-- C7 counterexample: updating the row at (imei "A", path "/p") — stored
with ati "orig" and created_on 5 — with an argument carrying ati "new" and
CreatedOn 9 leaves ati at "orig" (the ati column is missing from the
UPDATE's assignment list) and overwrites created_on with the argument's 9
instead of preserving the stored 5. -/
theorem update_overwrites_created_and_keeps_ati :
    (updateDongle [rowUpd] dUpd 50).1 =
      [{ imei := "A", imsi := "S2", path := "/p", symlink := true, tty := 2,
         ati := "orig", prop := none, createdOn := 9, updatedOn := 50 }] ∧
    rowUpd.createdOn = 5 ∧ dUpd.createdOn = 9 ∧
    rowUpd.ati = "orig" ∧ dUpd.ati = "new" :=
  ⟨rfl, rfl, rfl, rfl, rfl⟩

/-- C7 amended: `UpdateDongle` matches rows by the (PhysicalID, PortPath)
pair, rewrites the mutable fields except the identity string `ati` (which
keeps its stored value), re-stamps updated_on to the current time, sets
created_on to the argument's CreatedOn value rather than preserving the
stored one, and leaves unmatched rows untouched. -/
theorem updateDongle_amended (st : Store) (d : Dongle) (now : Nat) (r : Row)
    (hr : r ∈ st) :
    (updateDongle st d now).2 = none ∧
    (r.path = d.path → r.imei = d.imei →
      ({ imei := d.imei, imsi := d.imsi, path := d.path,
         symlink := d.isSymlinked, tty := d.tty, ati := r.ati,
         prop := marshalProps d.properties, createdOn := d.createdOn,
         updatedOn := now : Row }) ∈ (updateDongle st d now).1) ∧
    ((r.path = d.path ∧ r.imei = d.imei → False) → r ∈ (updateDongle st d now).1) := by
  refine ⟨rfl, ?_, ?_⟩
  · intro hp hi
    refine List.mem_map.mpr ⟨r, hr, ?_⟩
    simp [updateRow, hp, hi]
  · intro hne
    refine List.mem_map.mpr ⟨r, hr, ?_⟩
    have hcond : (r.path == d.path && r.imei == d.imei) = false := by
      by_cases h1 : r.path = d.path
      · by_cases h2 : r.imei = d.imei
        · exact (hne ⟨h1, h2⟩).elim
        · simp [h1, h2]
      · simp [h1]
    simp [updateRow, hcond]

/-- Witness for C7's amended theorem: the rewritten row of the
counterexample store keeps ati "orig" and takes created_on 9 from the
argument. -/
theorem updateDongle_amended_witness :
    ({ imei := dUpd.imei, imsi := dUpd.imsi, path := dUpd.path,
       symlink := dUpd.isSymlinked, tty := dUpd.tty, ati := rowUpd.ati,
       prop := marshalProps dUpd.properties, createdOn := dUpd.createdOn,
       updatedOn := 50 : Row }) ∈ (updateDongle [rowUpd] dUpd 50).1 :=
  (updateDongle_amended [rowUpd] dUpd 50 rowUpd (by simp)).2.1 rfl rfl

/-- C8: `RemoveDongle` always commits successfully, keeps exactly the rows
whose imei differs from the argument's, is a no-op on a store holding no
row with that imei, and applying it twice yields the state of applying it
once. -/
theorem removeDongle_spec (st : Store) (d : Dongle) :
    (removeDongle st d).2 = none ∧
    (∀ r : Row, r ∈ (removeDongle st d).1 ↔ (r ∈ st ∧ r.imei ≠ d.imei)) ∧
    ((∀ r ∈ st, r.imei ≠ d.imei) → (removeDongle st d).1 = st) ∧
    (removeDongle (removeDongle st d).1 d).1 = (removeDongle st d).1 := by
  refine ⟨rfl, ?_, ?_, ?_⟩
  · intro r
    simp [removeDongle, List.mem_filter]
  · intro h
    show st.filter _ = st
    rw [List.filter_eq_self]
    intro r hr
    simpa using h r hr
  · show (st.filter _).filter _ = st.filter _
    rw [List.filter_eq_self]
    intro r hr
    exact (List.mem_filter.mp hr).2

/-- Witness for C8: deleting IMEI "B" from a store holding only an IMEI-"A"
row changes nothing, and a second delete leaves the same state. -/
theorem removeDongle_spec_witness :
    (removeDongle [rowA0] dRemB).1 = [rowA0] ∧
    (removeDongle (removeDongle [rowA0] dRemB).1 dRemB).1 =
      (removeDongle [rowA0] dRemB).1 :=
  ⟨(removeDongle_spec [rowA0] dRemB).2.2.1 (by decide),
   (removeDongle_spec [rowA0] dRemB).2.2.2⟩

/-- C10: the result of `RemoveDongle` — both the new store state and the
returned error — depends only on the IMEI field of its argument. -/
theorem removeDongle_depends_only_on_imei (st : Store) (d1 d2 : Dongle)
    (h : d1.imei = d2.imei) :
    removeDongle st d1 = removeDongle st d2 := by
  simp [removeDongle, h]

/-- Witness for C10: two delete arguments sharing IMEI "C" but differing in
every other field produce identical results. -/
theorem removeDongle_depends_only_on_imei_witness :
    removeDongle [rowA0] dTwinA = removeDongle [rowA0] dTwinB ∧
    dTwinA.imsi ≠ dTwinB.imsi ∧ dTwinA.path ≠ dTwinB.path ∧
    dTwinA.isSymlinked ≠ dTwinB.isSymlinked ∧ dTwinA.tty ≠ dTwinB.tty ∧
    dTwinA.ati ≠ dTwinB.ati ∧ dTwinA.properties ≠ dTwinB.properties ∧
    dTwinA.createdOn ≠ dTwinB.createdOn ∧ dTwinA.updatedOn ≠ dTwinB.updatedOn :=
  ⟨removeDongle_depends_only_on_imei [rowA0] dTwinA dTwinB rfl,
   by decide, by decide, by decide, by decide, by decide, by decide,
   by decide, by decide⟩

end Db
